import Mathlib

/-!
Shallow embedding of the report lifecycle and assignment workflow of the
institution-report-platform API (NestJS + Supabase).

The embedding follows the repository-based service implementation
(`ReportsService` working through `ReportsRepository` and `ReportMapper`):
  - `Content` models the open `report_content` JSON document; merges via
    object spread are modelled as structure updates that preserve all other
    fields (plus an `extra` association list standing for unknown keys).
  - `StoreState` models the record store (reports, assigned_reports,
    moderators tables) together with the blob store (set of uploaded paths).
  - `Env` injects collaborator failures (upload, insert, assignment insert,
    update, email send); `none` means the collaborator call succeeds.
  - Timestamps are modelled as epoch milliseconds (`Int`); a stored date
    value is a `DateValue`, where `valid ms` stands for a string that
    `new Date(...)` parses to `ms`, `invalid` for an unparseable string and
    `absent` for `null`/`undefined`/missing (all JS-falsy).  `toISOString`
    is injective on valid dates, so the canonical ISO rendering of a date is
    represented by its millisecond value.
  - JS string truthiness (`||` chains, `x ? ... : ...` on strings) is
    modelled by `strOpt` / `jsOrS` / `jsOrStr`.
Row ordering (`order by created_at desc`) is not modelled: no claim below
depends on the order of returned lists, only on their membership.
-/

/-- A stored date value as seen through `new Date(...)`. -/
inductive DateValue where
  | absent
  | invalid (raw : String)
  | valid (ms : Int)
deriving DecidableEq, Repr

/-- `parseDate` of the mappers: falsy input and unparseable strings give
`undefined`; a parseable string is normalised (represented by its ms value). -/
def parseDate : DateValue → Option Int
  | .absent => none
  | .invalid _ => none
  | .valid ms => some ms

/-- `s || undefined` on an optional string: the empty string is falsy. -/
def strOpt : Option String → Option String
  | some s => if s = "" then none else some s
  | none => none

/-- `a || b` on optional strings with JS truthiness. -/
def jsOrS (a b : Option String) : Option String :=
  match a with
  | some s => if s = "" then b else some s
  | none => b

/-- `a || b` on plain strings with JS truthiness. -/
def jsOrStr (a b : String) : String := if a = "" then b else a

/-- The open `report_content` document.  Keys the workflow reads or writes
are explicit fields; `extra` stands for all other keys, which every merge
(object spread) preserves. -/
structure Content where
  status : Option String := none
  assigned_to : Option String := none
  assigned_at : DateValue := .absent
  completed_at : DateValue := .absent
  review_notes : Option String := none
  findings : Option String := none
  comparisonNotes : Option String := none
  pdf_storage_path : Option String := none
  numer_rspo : Option String := none
  submitted_by_user_id : Option String := none
  extra : List (String × String) := []
deriving DecidableEq, Repr

/-- A row of the `reports` table. -/
structure ReportEntity where
  report_id : String
  reporter_name : String := ""
  reporter_email : String := ""
  reported_institution : Option String := none
  report_description : Option String := none
  institution_name : Option String := none
  institution_id : Option String := none
  report_reason : Option String := none
  report_content : Content := {}
  created_at : DateValue := .absent
  updated_at : DateValue := .absent
deriving DecidableEq, Repr

/-- A row of the `assigned_reports` table. -/
structure AssignedReport where
  report_id : String
  moderator_id : String
  assigned_at : DateValue
deriving DecidableEq, Repr

/-- The external report projection (`ReportResponseDto`). -/
structure ReportResponseDto where
  id : String
  reporterName : String
  reporterEmail : String
  reportedInstitution : Option String
  institutionName : Option String
  institutionId : Option String
  numerRspo : Option String
  reportDescription : Option String
  reportReason : Option String
  status : String
  assignedTo : Option String
  assignedAt : Option Int
  completedAt : Option Int
  createdAt : Int
  updatedAt : Int
  pdfPath : Option String
deriving DecidableEq, Repr

def knownStatuses : List String := ["pending", "assigned", "completed"]

/-- Status derivation of `ReportMapper.toResponseDto`: prefer
`content.status` when truthy and one of the three known values, otherwise
default to `"pending"`. -/
def statusOf (c : Content) : String :=
  match c.status with
  | some s => if s != "" && knownStatuses.contains s then s else "pending"
  | none => "pending"

/-- `ReportMapper.toResponseDto`.  `now` is the clock value used by the
`new Date()` fallbacks. -/
def toResponseDto (e : ReportEntity) (assignment : Option AssignedReport)
    (assignedUserId : Option String) (now : Int) : ReportResponseDto :=
  let c := e.report_content
  let assignedAt :=
    (parseDate c.assigned_at).orElse (fun _ =>
      match assignment with
      | some a => parseDate a.assigned_at
      | none => none)
  { id := e.report_id
    reporterName := e.reporter_name
    reporterEmail := e.reporter_email
    reportedInstitution := strOpt e.reported_institution
    institutionName := strOpt e.institution_name
    institutionId := strOpt e.institution_id
    numerRspo := strOpt c.numer_rspo
    reportDescription := strOpt e.report_description
    reportReason := strOpt e.report_reason
    status := statusOf c
    assignedTo := jsOrS c.assigned_to (strOpt assignedUserId)
    assignedAt := assignedAt
    completedAt := parseDate c.completed_at
    createdAt := (parseDate e.created_at).getD now
    updatedAt := (parseDate e.updated_at).getD now
    pdfPath := c.pdf_storage_path }

/-- `ReportMapper.toResponseDtos`: per-entity lookup in the assignment map
(keyed by `report_id`). -/
def toResponseDtos (entities : List ReportEntity)
    (assignments : List AssignedReport) (assignedUserId : Option String)
    (now : Int) : List ReportResponseDto :=
  entities.map (fun e =>
    toResponseDto e (assignments.find? (fun a => a.report_id == e.report_id))
      assignedUserId now)

/-- A row of the `moderators` table as the moderator mapper sees it. -/
structure ModeratorEntity where
  id : String
  fullname : String := ""
  email : String := ""
  image : Option String := none
  created_at : DateValue := .absent
deriving DecidableEq, Repr

/-- The external moderator projection. -/
structure ModeratorResponseDto where
  uuid : String
  fullname : String
  email : String
  image : Option String
  createdAt : Int
deriving DecidableEq, Repr

/-- `ModeratorMapper.toResponseDto`: its local `parseDate` substitutes the
current time for a falsy or unparseable `created_at`. -/
def moderatorToResponseDto (m : ModeratorEntity) (now : Int) :
    ModeratorResponseDto :=
  { uuid := m.id
    fullname := m.fullname
    email := m.email
    image := strOpt m.image
    createdAt := (parseDate m.created_at).getD now }

-- quick sanity checks of the mapper on concrete inputs
example : statusOf { status := some "completed" } = "completed" := by decide
example : statusOf { status := some "weird" } = "pending" := by decide
example : statusOf {} = "pending" := by decide
example :
    (toResponseDto { report_id := "r1" } none none 7).createdAt = 7 := by decide
example :
    (toResponseDto { report_id := "r1" } none none 7).assignedAt = none := by
  decide

/-- The record store (reports, assigned_reports, moderators tables — the
moderators table keeps only the lazily created ids, which is all the
workflow reads) together with the blob store (the set of uploaded paths). -/
structure StoreState where
  reports : List ReportEntity := []
  assignments : List AssignedReport := []
  moderators : List String := []
  blobs : List String := []
deriving DecidableEq, Repr

/-- Record-store failures: the client distinguishes unique-constraint
violations from other failures, but the service code may or may not. -/
inductive StoreErrKind where
  | uniqueViolation
  | otherFailure
deriving DecidableEq, Repr

structure StoreFailure where
  kind : StoreErrKind
  message : String
deriving DecidableEq, Repr

/-- Failure injection for collaborator calls made during one service call;
`none` means that call succeeds. -/
structure Env where
  uploadError : Option String := none
  insertReportError : Option String := none
  createAssignmentError : Option StoreFailure := none
  updateReportError : Option String := none
  emailSendError : Option String := none
deriving DecidableEq, Repr

/-- The HTTP-level error taxonomy the service throws
(`NotFoundException`, `ConflictException`, `InternalServerErrorException`,
`UnprocessableEntityException`). -/
inductive ApiError where
  | notFound (msg : String)
  | conflict (msg : String)
  | internal (msg : String)
  | unprocessable (msg : String)
deriving DecidableEq, Repr

instance {ε α : Type} [DecidableEq ε] [DecidableEq α] :
    DecidableEq (Except ε α) := fun a b => by
  cases a <;> cases b
  case error.error x y =>
    exact if h : x = y then .isTrue (by rw [h]) else .isFalse (by simp [h])
  case error.ok x y => exact .isFalse (by simp)
  case ok.error x y => exact .isFalse (by simp)
  case ok.ok x y =>
    exact if h : x = y then .isTrue (by rw [h]) else .isFalse (by simp [h])

-- Repository access patterns (`ReportsRepository`)

/-- `repository.findById`. -/
def findByIdR (s : StoreState) (reportId : String) : Option ReportEntity :=
  s.reports.find? (fun r => r.report_id == reportId)

/-- `repository.findByIds` (empty input short-circuits to an empty result). -/
def findByIds (s : StoreState) (ids : List String) : List ReportEntity :=
  if ids.isEmpty then [] else s.reports.filter (fun r => ids.contains r.report_id)

/-- `repository.findAll` (ordering by `created_at` descending not modelled). -/
def findAllReports (s : StoreState) : List ReportEntity := s.reports

/-- `repository.update(reportId, { report_content })`. -/
def updateContent (s : StoreState) (reportId : String) (c : Content) :
    StoreState :=
  { s with reports := s.reports.map (fun r =>
      if r.report_id == reportId then { r with report_content := c } else r) }

/-- `repository.findAssignment(reportId, moderatorId?)`. -/
def findAssignment (s : StoreState) (reportId : String)
    (moderatorId : Option String) : Option AssignedReport :=
  s.assignments.find? (fun a =>
    a.report_id == reportId &&
      (match moderatorId with
       | some m => a.moderator_id == m
       | none => true))

/-- `repository.createAssignment` (the success branch of the insert). -/
def createAssignmentRow (s : StoreState) (reportId moderatorId : String)
    (assignedAt : DateValue) : StoreState :=
  { s with assignments := s.assignments ++
      [{ report_id := reportId, moderator_id := moderatorId,
         assigned_at := assignedAt }] }

/-- `repository.deleteAssignment`: deletes every row for the report id. -/
def deleteAssignment (s : StoreState) (reportId : String) : StoreState :=
  { s with assignments :=
      s.assignments.filter (fun a => !(a.report_id == reportId)) }

/-- `repository.findAssignmentsByModeratorId`. -/
def findAssignmentsByModeratorId (s : StoreState) (moderatorId : String) :
    List AssignedReport :=
  s.assignments.filter (fun a => a.moderator_id == moderatorId)

/-- `repository.findAllAssignedReportIds`. -/
def findAllAssignedReportIds (s : StoreState) : List String :=
  s.assignments.map (fun a => a.report_id)

/-- `repository.findOrCreateModerator`: returns the moderator id for
`userId`, inserting a minimal row `{ id: userId }` when absent.  The
returned id is always `userId` (it is the primary key). -/
def findOrCreateModerator (s : StoreState) (userId : String) :
    StoreState × String :=
  if s.moderators.contains userId then (s, userId)
  else ({ s with moderators := s.moderators ++ [userId] }, userId)

-- Service response shapes

structure AssignReportResponse where
  message : String
  reportId : String
  moderatorId : String
deriving DecidableEq, Repr

structure UnassignReportResponse where
  message : String
  reportId : String
deriving DecidableEq, Repr

structure ReviewReportResponse where
  message : String
  reportId : String
  status : String
deriving DecidableEq, Repr

structure CreateReportResponse where
  reportId : String
  pdfPath : Option String
  institutionId : Option String
deriving DecidableEq, Repr

/-- The uploaded multipart file (`Express.Multer.File`). -/
structure PdfFile where
  originalname : String := ""
  buffer : List Nat := []
  mimetype : String := ""
deriving DecidableEq, Repr

structure CreateReportDto where
  reporterName : String := ""
  reporterEmail : String := ""
  reportedInstitution : Option String := none
  reportDescription : Option String := none
  reportContent : Content := {}
  institutionName : Option String := none
  institutionId : Option String := none
  numerRspo : Option String := none
  reportReason : Option String := none
deriving DecidableEq, Repr

/-- Helper for `extnameOf`: walks the reversed basename; on the first dot,
returns the accumulated extension characters unless the dot is the leading
character of the basename. -/
def extTail : List Char → List Char → Option (List Char)
  | [], _ => none
  | '.' :: rest, acc => if rest.isEmpty then none else some acc
  | ch :: rest, acc => extTail rest (ch :: acc)

/-- Node `path.extname`: suffix of the basename from its last dot
(a leading dot alone, as in `.bashrc`, yields the empty string). -/
def extnameOf (p : String) : String :=
  let base := p.data.reverse.takeWhile (fun ch => ch != '/')
  match extTail base [] with
  | some ext => String.mk ('.' :: ext)
  | none => ""

/-- The storage path derived in `create`:
`{institutionId || numerRspo || "unassigned"}/{dateFolder}/{uniqueId}{ext}`.
`dateFolder` abstracts the `YYYY-MM-DD` rendering of the current time. -/
def storagePathOf (dto : CreateReportDto) (dateFolder uniqueId ext : String) :
    String :=
  match strOpt (jsOrS dto.institutionId dto.numerRspo) with
  | some p => p ++ "/" ++ dateFolder ++ "/" ++ uniqueId ++ ext
  | none => "unassigned/" ++ dateFolder ++ "/" ++ uniqueId ++ ext

/-- `ReportsService.create`.  `uniqueId` and `newReportId` thread the
random UUID and the store-generated row id; `dateFolder` the date part of
the path.  The blob delete used as compensation removes the path from the
blob store (`client.storage.remove`, whose own result the code ignores). -/
def createReport (s : StoreState) (env : Env) (dto : CreateReportDto)
    (pdf : Option PdfFile) (user : Option String)
    (dateFolder uniqueId newReportId : String) (now : Int) :
    StoreState × Except ApiError CreateReportResponse :=
  match pdf with
  | none => (s, .error (.unprocessable "A PDF file is required."))
  | some f =>
    let ext := jsOrStr (extnameOf (jsOrStr f.originalname "report.pdf")) ".pdf"
    let storagePath := storagePathOf dto dateFolder uniqueId ext
    match env.uploadError with
    | some msg => (s, .error (.internal ("Failed to upload PDF: " ++ msg)))
    | none =>
      let s1 := { s with blobs := s.blobs ++ [storagePath] }
      let institutionId :=
        strOpt (jsOrS dto.institutionId
          (jsOrS dto.numerRspo dto.reportedInstitution))
      match env.insertReportError with
      | some msg =>
        let s2 := { s1 with
          blobs := s1.blobs.filter (fun b => !(b == storagePath)) }
        (s2, .error (.unprocessable ("Could not save report: " ++ msg)))
      | none =>
        let newReport : ReportEntity :=
          { report_id := newReportId
            reporter_name := dto.reporterName
            reporter_email := dto.reporterEmail
            reported_institution := dto.reportedInstitution
            report_description := dto.reportDescription
            institution_name := dto.institutionName
            institution_id := institutionId
            report_reason := dto.reportReason
            report_content := { dto.reportContent with
              pdf_storage_path := some storagePath
              numer_rspo := dto.numerRspo
              submitted_by_user_id := user }
            created_at := DateValue.valid now
            updated_at := DateValue.valid now }
        ({ s1 with reports := s1.reports ++ [newReport] },
         .ok { reportId := newReportId, pdfPath := some storagePath,
               institutionId := institutionId })

/-- `ReportsService.findAvailable`: reports with no `assigned_reports` row
whose projection has no `assignedTo` or has status `"pending"`. -/
def findAvailable (s : StoreState) (now : Int) : List ReportResponseDto :=
  let assignedReportIds := findAllAssignedReportIds s
  ((findAllReports s).map (fun r => toResponseDto r none none now)).filter
    (fun dto =>
      !(assignedReportIds.contains dto.id) &&
        (dto.assignedTo.isNone || dto.status == "pending"))

/-- `ReportsService.findAssignedByUserId`. -/
def findAssignedByUserId (s : StoreState) (userId : String) (now : Int) :
    StoreState × List ReportResponseDto :=
  let p := findOrCreateModerator s userId
  let s1 := p.1
  let moderatorId := p.2
  let assignments := findAssignmentsByModeratorId s1 moderatorId
  if assignments.isEmpty then (s1, [])
  else
    let reportIds := assignments.map (fun a => a.report_id)
    let reports := findByIds s1 reportIds
    let transformed := toResponseDtos reports assignments (some userId) now
    (s1, transformed.filter (fun r => r.status == "assigned"))

/-- `ReportsService.findCompletedByUserId`. -/
def findCompletedByUserId (s : StoreState) (userId : String) (now : Int) :
    StoreState × List ReportResponseDto :=
  let p := findOrCreateModerator s userId
  let s1 := p.1
  let moderatorId := p.2
  let assignments := findAssignmentsByModeratorId s1 moderatorId
  if assignments.isEmpty then (s1, [])
  else
    let reportIds := assignments.map (fun a => a.report_id)
    let reports := findByIds s1 reportIds
    let transformed := toResponseDtos reports assignments (some userId) now
    (s1, transformed.filter (fun r => r.status == "completed"))

/-- `ReportsService.assignReportToUser`.  The inner `catch` around
`repository.createAssignment` throws `InternalServerErrorException`
whatever the store failure was; the inner `catch` around the content merge
deletes the freshly created assignment row before rethrowing. -/
def assignReportToUser (s : StoreState) (env : Env) (reportId userId : String)
    (now : Int) : StoreState × Except ApiError AssignReportResponse :=
  match findByIdR s reportId with
  | none =>
    (s, .error (.notFound ("Report with ID " ++ reportId ++ " not found")))
  | some report =>
    let p := findOrCreateModerator s userId
    let s1 := p.1
    let moderatorId := p.2
    match findAssignment s1 reportId none with
    | some existing =>
      if existing.moderator_id ≠ moderatorId then
        (s1, .error
          (.conflict "This report is already assigned to another moderator"))
      else
        (s1, .error (.conflict "This report is already assigned to you"))
    | none =>
      match env.createAssignmentError with
      | some f =>
        (s1, .error (.internal ("Failed to assign report: " ++ f.message)))
      | none =>
        let s2 := createAssignmentRow s1 reportId moderatorId (.valid now)
        let c := report.report_content
        let updated := { c with
          status := some "assigned"
          assigned_to := some userId
          assigned_at := DateValue.valid now }
        match env.updateReportError with
        | some msg =>
          (deleteAssignment s2 reportId,
           .error (.internal ("Failed to update report status: " ++ msg)))
        | none =>
          (updateContent s2 reportId updated,
           .ok { message := "Report assigned successfully"
                 reportId := reportId
                 moderatorId := moderatorId })

/-- `ReportsService.unassignReportFromUser`: requires an assignment row
owned by the resolved moderator, then deletes it and resets the content. -/
def unassignReportFromUser (s : StoreState) (env : Env)
    (reportId userId : String) :
    StoreState × Except ApiError UnassignReportResponse :=
  match findByIdR s reportId with
  | none =>
    (s, .error (.notFound ("Report with ID " ++ reportId ++ " not found")))
  | some report =>
    let p := findOrCreateModerator s userId
    let s1 := p.1
    let moderatorId := p.2
    match findAssignment s1 reportId (some moderatorId) with
    | none => (s1, .error (.conflict "This report is not assigned to you"))
    | some _ =>
      let s2 := deleteAssignment s1 reportId
      let c := report.report_content
      let updated := { c with
        status := some "pending"
        assigned_to := none
        assigned_at := DateValue.absent }
      match env.updateReportError with
      | some msg =>
        (s2, .error (.internal ("Failed to update report status: " ++ msg)))
      | none =>
        (updateContent s2 reportId updated,
         .ok { message := "Report unassigned successfully"
               reportId := reportId })

/-- `dto.reportContent` of the review payload. -/
structure ReviewContentDto where
  comparisonNotes : Option String := none
  findings : Option String := none
deriving DecidableEq, Repr

structure ReviewReportDto where
  reportContent : Option ReviewContentDto := none
  reviewNotes : Option String := none
deriving DecidableEq, Repr

/-- `x?.trim() || ...` step of the review-notes chain: a missing value or a
whitespace-only value is falsy. -/
def trimmedNonEmpty : Option String → Option String
  | some s => let t := s.trim; if t = "" then none else some t
  | none => none

/-- What the caller can observe of `EmailService.sendReportReviewEmail`
(only through logs): the send can be skipped, succeed, or fail — in the
failing case the exception is caught inside the email service and logged,
never rethrown. -/
inductive EmailOutcome where
  | notAttempted
  | skippedNoRecipient
  | sent
  | failedLogged (msg : String)
deriving DecidableEq, Repr

/-- `EmailService.sendReportReviewEmail`: returns (never throws); a resend
failure is caught and logged inside the method. -/
def sendReportReviewEmail (env : Env) (reporterEmail : String) : EmailOutcome :=
  if reporterEmail = "" then .skippedNoRecipient
  else
    match env.emailSendError with
    | some msg => .failedLogged msg
    | none => .sent

/-- Result of one `reviewReport` call: final store state, the observable
outcome of the notification side effect, and the HTTP-level result. -/
structure ReviewOutcome where
  state : StoreState
  email : EmailOutcome
  result : Except ApiError ReviewReportResponse
deriving DecidableEq, Repr

/-- `ReportsService.reviewReport`.  (The moderator display-name lookup
passed to the email service does not affect control flow or the store and
is not modelled.) -/
def reviewReport (s : StoreState) (env : Env) (reportId userId : String)
    (dto : ReviewReportDto) (now : Int) : ReviewOutcome :=
  match findByIdR s reportId with
  | none =>
    { state := s, email := .notAttempted
      result := .error (.notFound ("Report with ID " ++ reportId ++ " not found")) }
  | some report =>
    let p := findOrCreateModerator s userId
    let s1 := p.1
    let moderatorId := p.2
    match findAssignment s1 reportId (some moderatorId) with
    | none =>
      { state := s1, email := .notAttempted
        result := .error (.conflict "This report is not assigned to you") }
    | some _ =>
      let reviewNotes :=
        (trimmedNonEmpty (dto.reportContent.bind
          (fun rc => rc.comparisonNotes))).orElse
          (fun _ => trimmedNonEmpty dto.reviewNotes)
      let c := report.report_content
      let updated := { c with
        status := some "completed"
        completed_at := DateValue.valid now
        review_notes := reviewNotes
        findings := jsOrS (dto.reportContent.bind (fun rc => rc.findings))
          c.findings
        comparisonNotes :=
          jsOrS (dto.reportContent.bind (fun rc => rc.comparisonNotes))
            c.comparisonNotes }
      match env.updateReportError with
      | some msg =>
        { state := s1, email := .notAttempted
          result :=
            .error (.internal ("Failed to update report status: " ++ msg)) }
      | none =>
        let s2 := updateContent s1 reportId updated
        let emailResult := sendReportReviewEmail env report.reporter_email
        { state := s2, email := emailResult
          result := .ok { message := "Report reviewed successfully"
                          reportId := reportId
                          status := "completed" } }

/-! ### Helper lemmas -/

theorem fOCM_snd (s : StoreState) (u : String) :
    (findOrCreateModerator s u).2 = u := by
  unfold findOrCreateModerator
  split <;> rfl

theorem fOCM_assignments (s : StoreState) (u : String) :
    ((findOrCreateModerator s u).1).assignments = s.assignments := by
  unfold findOrCreateModerator
  split <;> rfl

theorem fOCM_reports (s : StoreState) (u : String) :
    ((findOrCreateModerator s u).1).reports = s.reports := by
  unfold findOrCreateModerator
  split <;> rfl

theorem findAssignment_fOCM (s : StoreState) (u rid : String)
    (m : Option String) :
    findAssignment (findOrCreateModerator s u).1 rid m =
      findAssignment s rid m := by
  unfold findAssignment
  rw [fOCM_assignments]

theorem findByIdR_fOCM (s : StoreState) (u rid : String) :
    findByIdR (findOrCreateModerator s u).1 rid = findByIdR s rid := by
  unfold findByIdR
  rw [fOCM_reports]

theorem deleteAssignment_no_row (s : StoreState) (rid : String) :
    ∀ a ∈ (deleteAssignment s rid).assignments, a.report_id ≠ rid := by
  intro a ha
  unfold deleteAssignment at ha
  simp only [List.mem_filter, Bool.not_eq_true'] at ha
  intro hc
  rw [hc] at ha
  simp at ha

theorem findAssignment_eq_none_of_no_row (s : StoreState) (rid : String)
    (m : Option String) (h : ∀ a ∈ s.assignments, a.report_id ≠ rid) :
    findAssignment s rid m = none := by
  unfold findAssignment
  refine List.find?_eq_none.mpr ?_
  intro a ha
  have hne := h a ha
  simp [hne]

theorem find?_map_updateRow (l : List ReportEntity) (rid : String)
    (c : Content) :
    (l.map (fun r =>
        if r.report_id == rid then { r with report_content := c } else r)).find?
        (fun r => r.report_id == rid) =
      (l.find? (fun r => r.report_id == rid)).map
        (fun r => { r with report_content := c }) := by
  induction l with
  | nil => rfl
  | cons hd tl ih =>
    by_cases h : (hd.report_id == rid) = true
    · simp only [List.map_cons, List.find?_cons, if_pos h]
      have h2 : (({ hd with report_content := c } : ReportEntity).report_id
          == rid) = true := h
      rw [h2]
      rfl
    · simp only [List.map_cons, List.find?_cons, if_neg h,
        Bool.not_eq_true] at *
      rw [h, ih]

theorem findByIdR_updateContent (s : StoreState) (rid : String) (c : Content) :
    findByIdR (updateContent s rid c) rid =
      (findByIdR s rid).map (fun r => { r with report_content := c }) := by
  unfold findByIdR updateContent
  exact find?_map_updateRow s.reports rid c

theorem toResponseDto_id (e : ReportEntity) (a : Option AssignedReport)
    (u : Option String) (now : Int) :
    (toResponseDto e a u now).id = e.report_id := rfl

/-! ### Claims -/

/-- C7: the derived status of the response projection is always one of
`pending`/`assigned`/`completed`, is a pure function of the `report_content`
document alone, equals `content.status` whenever that is one of the three
known values, and is `pending` in every other case (absent or unrecognized
status tag). -/
theorem derivedStatus_spec :
    (∀ c : Content, statusOf c = "pending" ∨ statusOf c = "assigned" ∨
      statusOf c = "completed") ∧
    (∀ c : Content, ∀ v, c.status = some v → v ∈ knownStatuses →
      statusOf c = v) ∧
    (∀ c : Content, ∀ v, c.status = some v → v ∉ knownStatuses →
      statusOf c = "pending") ∧
    (∀ c : Content, c.status = none → statusOf c = "pending") ∧
    (∀ e : ReportEntity, ∀ a : Option AssignedReport, ∀ u : Option String,
      ∀ now : Int,
      (toResponseDto e a u now).status = statusOf e.report_content) := by
  refine ⟨?_, ?_, ?_, ?_, ?_⟩
  · intro c
    unfold statusOf
    cases hst : c.status with
    | none => exact Or.inl rfl
    | some v =>
      dsimp only
      by_cases h : (v != "" && knownStatuses.contains v) = true
      · rw [if_pos h]
        have hv : v ∈ knownStatuses := by
          have := (Bool.and_eq_true _ _).mp h
          simpa [List.elem_iff] using this.2
        simp [knownStatuses] at hv
        tauto
      · rw [if_neg h]
        exact Or.inl rfl
  · intro c v hst hmem
    unfold statusOf
    rw [hst]
    simp [knownStatuses] at hmem
    rcases hmem with rfl | rfl | rfl <;> decide
  · intro c v hst hmem
    unfold statusOf
    rw [hst]
    have hc : knownStatuses.contains v = false := by
      simp [List.elem_iff, hmem]
    simp only [hc, Bool.and_false, if_neg]
    simp
  · intro c hst
    unfold statusOf
    rw [hst]
  · intro e a u now
    rfl

/-- Witness for C7: the theorem evaluated at concrete inputs. -/
theorem derivedStatus_spec_witness :
    statusOf { status := some "assigned" } = "assigned" ∧
    statusOf { status := some "garbage" } = "pending" ∧
    statusOf { status := none } = "pending" :=
  ⟨derivedStatus_spec.2.1 { status := some "assigned" } "assigned" rfl
      (by decide),
   derivedStatus_spec.2.2.1 { status := some "garbage" } "garbage" rfl
      (by decide),
   derivedStatus_spec.2.2.2.1 { status := none } rfl⟩

/-- C9 counterexample: for a report row whose stored dates are all absent,
the projection (at current time 7) leaves `assignedAt` and `completedAt`
absent (`none`) instead of substituting "now" — only `createdAt` (and
`updatedAt`) get the "now" fallback the claim asserts for all three. -/
theorem timestamp_now_fallback_counterexample :
    (toResponseDto { report_id := "r1" } none none 7).assignedAt = none ∧
    (toResponseDto { report_id := "r1" } none none 7).completedAt = none ∧
    (toResponseDto { report_id := "r1" } none none 7).createdAt = 7 ∧
    (toResponseDto { report_id := "r1" } none none 7).assignedAt ≠ some 7 ∧
    (toResponseDto { report_id := "r1" } none none 7).completedAt ≠ some 7 := by
  decide

/-- C9 amended: in the report projection `createdAt` and `updatedAt` are
silently replaced with "now" when the stored date is absent or unparseable
(and normalized when parseable), and the moderator projection does the same
for its `createdAt`; but `assignedAt` and `completedAt` are omitted
(`none`) rather than replaced with "now" when absent/unparseable everywhere
(content and assignment row alike). -/
theorem timestamp_fallback_spec :
    (∀ e : ReportEntity, ∀ a : Option AssignedReport, ∀ u : Option String,
      ∀ now : Int, parseDate e.created_at = none →
      (toResponseDto e a u now).createdAt = now) ∧
    (∀ e : ReportEntity, ∀ a : Option AssignedReport, ∀ u : Option String,
      ∀ now ms : Int, e.created_at = .valid ms →
      (toResponseDto e a u now).createdAt = ms) ∧
    (∀ e : ReportEntity, ∀ a : Option AssignedReport, ∀ u : Option String,
      ∀ now : Int, parseDate e.updated_at = none →
      (toResponseDto e a u now).updatedAt = now) ∧
    (∀ e : ReportEntity, ∀ u : Option String, ∀ now : Int,
      parseDate e.report_content.assigned_at = none →
      (toResponseDto e none u now).assignedAt = none) ∧
    (∀ e : ReportEntity, ∀ u : Option String, ∀ now : Int,
      parseDate e.report_content.completed_at = none →
      (toResponseDto e none u now).completedAt = none) ∧
    (∀ m : ModeratorEntity, ∀ now : Int, parseDate m.created_at = none →
      (moderatorToResponseDto m now).createdAt = now) := by
  refine ⟨?_, ?_, ?_, ?_, ?_, ?_⟩
  · intro e a u now h
    simp [toResponseDto, h]
  · intro e a u now ms h
    simp [toResponseDto, h, parseDate]
  · intro e a u now h
    simp [toResponseDto, h]
  · intro e u now h
    simp [toResponseDto, h, Option.orElse]
  · intro e u now h
    simp [toResponseDto, h]
  · intro m now h
    simp [moderatorToResponseDto, h]

/-- Witness for C9 amended: the theorem evaluated at a concrete row. -/
theorem timestamp_fallback_spec_witness :
    (toResponseDto { report_id := "w9" } none none 42).createdAt = 42 ∧
    (toResponseDto { report_id := "w9" } none none 42).assignedAt = none ∧
    (moderatorToResponseDto { id := "m9" } 42).createdAt = 42 :=
  ⟨timestamp_fallback_spec.1 { report_id := "w9" } none none 42 rfl,
   timestamp_fallback_spec.2.2.2.1 { report_id := "w9" } none 42 rfl,
   timestamp_fallback_spec.2.2.2.2.2 { id := "m9" } 42 rfl⟩

/-- C10: for a user id with no moderator record and no assignments, both
listing operations return the empty result but mutate the store: they
insert a minimal moderator row (id only) for that user, so the moderators
table afterward contains the id. -/
theorem listings_create_moderator_row (s : StoreState) (userId : String)
    (now : Int) (hmod : s.moderators.contains userId = false)
    (hass : findAssignmentsByModeratorId s userId = []) :
    findAssignedByUserId s userId now =
      ({ s with moderators := s.moderators ++ [userId] }, []) ∧
    findCompletedByUserId s userId now =
      ({ s with moderators := s.moderators ++ [userId] }, []) ∧
    userId ∈
      (findAssignedByUserId s userId now).1.moderators := by
  have hstep : findOrCreateModerator s userId =
      ({ s with moderators := s.moderators ++ [userId] }, userId) := by
    unfold findOrCreateModerator
    rw [hmod]
    rfl
  have hass2 : findAssignmentsByModeratorId
      ({ s with moderators := s.moderators ++ [userId] } : StoreState)
      userId = [] := hass
  refine ⟨?_, ?_, ?_⟩
  · unfold findAssignedByUserId
    rw [hstep]
    simp [hass2]
  · unfold findCompletedByUserId
    rw [hstep]
    simp [hass2]
  · unfold findAssignedByUserId
    rw [hstep]
    simp [hass2]

/-- Witness for C10: a fresh user id on an empty store. -/
theorem listings_create_moderator_row_witness :
    findAssignedByUserId {} "user-7" 0 =
      ({ moderators := ["user-7"] }, []) ∧
    findCompletedByUserId {} "user-7" 0 =
      ({ moderators := ["user-7"] }, []) ∧
    "user-7" ∈ (findAssignedByUserId {} "user-7" 0).1.moderators :=
  listings_create_moderator_row {} "user-7" 0 rfl rfl

/-- C1 counterexample: the pre-check finds no assignment row for `"r1"`,
the assignment insert fails with a unique-constraint violation, and the
outcome is the generic internal error thrown by the insert `catch` block —
not the `Conflict("assigned to another moderator")` outcome the claim
requires. -/
theorem assign_insert_conflict_counterexample :
    (assignReportToUser { reports := [{ report_id := "r1" }] }
        { createAssignmentError :=
            some { kind := .uniqueViolation, message := "duplicate key" } }
        "r1" "u1" 0).2 =
      .error (.internal ("Failed to assign report: " ++ "duplicate key")) ∧
    (assignReportToUser { reports := [{ report_id := "r1" }] }
        { createAssignmentError :=
            some { kind := .uniqueViolation, message := "duplicate key" } }
        "r1" "u1" 0).2 ≠
      .error
        (.conflict "This report is already assigned to another moderator") := by
  decide

/-- C1 amended: when the pre-check finds no assignment row but the
assignment insert fails, the failure — whatever its kind, including a
unique-constraint violation — is surfaced as the generic internal error
`Failed to assign report: ...`, not as a `Conflict` outcome. -/
theorem assign_insert_failure_is_internal_error (s : StoreState) (env : Env)
    (reportId userId : String) (now : Int) (r : ReportEntity)
    (f : StoreFailure) (hrep : findByIdR s reportId = some r)
    (hpre : findAssignment s reportId none = none)
    (hf : env.createAssignmentError = some f) :
    (assignReportToUser s env reportId userId now).2 =
      .error (.internal ("Failed to assign report: " ++ f.message)) := by
  have hpre2 : findAssignment (findOrCreateModerator s userId).1
      reportId none = none := by
    rw [findAssignment_fOCM]
    exact hpre
  unfold assignReportToUser
  rw [hrep]
  simp only [hpre2, hf]

/-- Witness for C1 amended: a concrete store and injected unique-violation
insert failure. -/
theorem assign_insert_failure_is_internal_error_witness :
    (assignReportToUser { reports := [{ report_id := "w1" }] }
        { createAssignmentError :=
            some { kind := .uniqueViolation, message := "dup" } }
        "w1" "u1" 5).2 =
      .error (.internal ("Failed to assign report: " ++ "dup")) :=
  assign_insert_failure_is_internal_error
    { reports := [{ report_id := "w1" }] }
    { createAssignmentError :=
        some { kind := .uniqueViolation, message := "dup" } }
    "w1" "u1" 5 { report_id := "w1" }
    { kind := .uniqueViolation, message := "dup" } (by decide) (by decide) rfl

/-- C8 counterexample: a call with a present file whose byte content is
empty does NOT raise the validation error — with all collaborators
succeeding, it performs the blob upload and the record insert and returns
success, refuting the claim that an empty attachment is rejected with no
upload and no insert. -/
theorem create_empty_file_counterexample :
    (createReport {} {} {}
        (some { originalname := "x.pdf", buffer := [],
                mimetype := "application/pdf" })
        none "2026-10-11" "uid1" "rep1" 0).2 =
      .ok { reportId := "rep1",
            pdfPath := some "unassigned/2026-10-11/uid1.pdf",
            institutionId := none } ∧
    (createReport {} {} {}
        (some { originalname := "x.pdf", buffer := [],
                mimetype := "application/pdf" })
        none "2026-10-11" "uid1" "rep1" 0).1.blobs =
      ["unassigned/2026-10-11/uid1.pdf"] := by
  decide

/-- C8 amended: the validation check in `create` only tests the presence of
the attachment.  An absent file is rejected with the validation error and
no store interaction; the byte content of a present file is never
inspected, so a present-but-empty file proceeds exactly as a non-empty one
(upload attempted, insert attempted). -/
theorem create_validation_checks_presence_only (s : StoreState) (env : Env)
    (dto : CreateReportDto) (user : Option String)
    (dateFolder uniqueId newReportId : String) (now : Int) :
    (createReport s env dto none user dateFolder uniqueId newReportId now =
      (s, .error (.unprocessable "A PDF file is required."))) ∧
    (∀ f : PdfFile, ∀ b2 : List Nat,
      createReport s env dto (some f) user dateFolder uniqueId newReportId
          now =
        createReport s env dto (some { f with buffer := b2 }) user dateFolder
          uniqueId newReportId now) := by
  constructor
  · rfl
  · intro f b2
    rfl

/-- Witness for C8 amended: concrete absent-file call and a concrete
buffer-irrelevance instance. -/
theorem create_validation_checks_presence_only_witness :
    (createReport {} {} {} none none "d" "u" "n" 0 =
      ({}, .error (.unprocessable "A PDF file is required."))) ∧
    createReport {} {} {} (some { originalname := "a.pdf", buffer := [1] })
        none "d" "u" "n" 0 =
      createReport {} {} {}
        (some { originalname := "a.pdf", buffer := [] }) none "d" "u" "n" 0 :=
  ⟨(create_validation_checks_presence_only {} {} {} none "d" "u" "n" 0).1,
   (create_validation_checks_presence_only {} {} {} none "d" "u" "n" 0).2
     { originalname := "a.pdf", buffer := [1] } []⟩

/-- C3: when the blob upload fails, `create` aborts with the upload error
and leaves the store untouched (no record insert attempted, no blob kept);
when the upload succeeds but the record insert fails, `create` deletes the
just-uploaded blob before surfacing the error, so the blob path is no
longer in the blob store and no report row was added. -/
theorem create_two_phase_compensation (s : StoreState) (env : Env)
    (dto : CreateReportDto) (f : PdfFile) (user : Option String)
    (dateFolder uniqueId newReportId : String) (now : Int) :
    (∀ m, env.uploadError = some m →
      createReport s env dto (some f) user dateFolder uniqueId newReportId
          now =
        (s, .error (.internal ("Failed to upload PDF: " ++ m)))) ∧
    (env.uploadError = none → ∀ m, env.insertReportError = some m →
      (createReport s env dto (some f) user dateFolder uniqueId newReportId
          now).2 =
        .error (.unprocessable ("Could not save report: " ++ m)) ∧
      storagePathOf dto dateFolder uniqueId
          (jsOrStr (extnameOf (jsOrStr f.originalname "report.pdf")) ".pdf") ∉
        (createReport s env dto (some f) user dateFolder uniqueId newReportId
          now).1.blobs ∧
      (createReport s env dto (some f) user dateFolder uniqueId newReportId
          now).1.reports = s.reports) := by
  constructor
  · intro m hup
    unfold createReport
    rw [hup]
  · intro hup m hins
    unfold createReport
    rw [hup, hins]
    refine ⟨rfl, ?_, rfl⟩
    simp [List.mem_filter]

/-- Witness for C3: both failure injections on a concrete call. -/
theorem create_two_phase_compensation_witness :
    (createReport {} { uploadError := some "net down" } {}
        (some { originalname := "a.pdf" }) none "d" "u" "n" 0 =
      ({}, .error (.internal ("Failed to upload PDF: " ++ "net down")))) ∧
    ((createReport {} { insertReportError := some "boom" } {}
        (some { originalname := "a.pdf" }) none "d" "u" "n" 0).2 =
      .error (.unprocessable ("Could not save report: " ++ "boom")) ∧
     storagePathOf {} "d" "u"
         (jsOrStr (extnameOf (jsOrStr "a.pdf" "report.pdf")) ".pdf") ∉
       (createReport {} { insertReportError := some "boom" } {}
         (some { originalname := "a.pdf" }) none "d" "u" "n" 0).1.blobs ∧
     (createReport {} { insertReportError := some "boom" } {}
         (some { originalname := "a.pdf" }) none "d" "u" "n" 0).1.reports =
       ([] : List ReportEntity)) :=
  ⟨(create_two_phase_compensation {} { uploadError := some "net down" } {}
      { originalname := "a.pdf" } none "d" "u" "n" 0).1 "net down" rfl,
   (create_two_phase_compensation {} { insertReportError := some "boom" } {}
      { originalname := "boom" } none "d" "u" "n" 0).2 rfl "boom" rfl⟩

/-- C2 counterexample: a report whose content has derived status
`completed`, no Assignment row and no `assigned_to`, IS returned by
`findAvailable`, refuting the claim that any report with derived status
other than `pending` is excluded. -/
theorem findAvailable_completed_counterexample :
    (findAvailable
        { reports := [{ report_id := "r1",
                        report_content := { status := some "completed" } }] }
        0).map (fun d => (d.id, d.status, d.assignedTo)) =
      [("r1", "completed", none)] ∧
    findAllAssignedReportIds
        { reports := [{ report_id := "r1",
                        report_content := { status := some "completed" } }] } =
      [] := by
  decide

/-- C2 amended: `findAvailable` returns exactly the projections of reports
that have no Assignment row AND (have no `assignedTo` in the projection OR
have derived status `pending`).  In particular a report with derived status
`completed` (or `assigned`) but no Assignment row and no `assigned_to`
value is included, not excluded. -/
theorem findAvailable_mem_iff (s : StoreState) (now : Int)
    (d : ReportResponseDto) :
    d ∈ findAvailable s now ↔
      ∃ e, e ∈ s.reports ∧ d = toResponseDto e none none now ∧
        e.report_id ∉ findAllAssignedReportIds s ∧
        (d.assignedTo = none ∨ d.status = "pending") := by
  unfold findAvailable findAllReports
  rw [List.mem_filter]
  constructor
  · rintro ⟨hmem, hp⟩
    rw [List.mem_map] at hmem
    obtain ⟨e, he, hfe⟩ := hmem
    refine ⟨e, he, hfe.symm, ?_, ?_⟩
    · have h1 := ((Bool.and_eq_true _ _).mp hp).1
      rw [Bool.not_eq_true'] at h1
      rw [← hfe, toResponseDto_id] at h1
      intro hc
      have hc2 : (findAllAssignedReportIds s).contains e.report_id = true :=
        List.elem_iff.mpr hc
      rw [hc2] at h1
      cases h1
    · have h2 := ((Bool.and_eq_true _ _).mp hp).2
      rcases (Bool.or_eq_true _ _).mp h2 with h | h
      · exact Or.inl (Option.isNone_iff_eq_none.mp h)
      · exact Or.inr (by simpa using h)
  · rintro ⟨e, he, rfl, hnoass, hok⟩
    constructor
    · rw [List.mem_map]
      exact ⟨e, he, rfl⟩
    · rw [Bool.and_eq_true]
      constructor
      · rw [Bool.not_eq_true']
        rw [toResponseDto_id]
        cases hc : (findAllAssignedReportIds s).contains e.report_id
        · rfl
        · exact absurd (List.elem_iff.mp hc) hnoass
      · rw [Bool.or_eq_true]
        rcases hok with h | h
        · exact Or.inl (Option.isNone_iff_eq_none.mpr h)
        · exact Or.inr (by simpa using h)

/-- Witness for C2 amended: the characterization evaluated on a concrete
store containing one completed, unassigned report. -/
theorem findAvailable_mem_iff_witness :
    toResponseDto
        { report_id := "r1",
          report_content := { status := some "completed" } } none none 0 ∈
      findAvailable
        { reports := [{ report_id := "r1",
                        report_content := { status := some "completed" } }] }
        0 :=
  (findAvailable_mem_iff
      { reports := [{ report_id := "r1",
                      report_content := { status := some "completed" } }] }
      0
      (toResponseDto
        { report_id := "r1",
          report_content := { status := some "completed" } } none none 0)).mpr
    ⟨{ report_id := "r1",
       report_content := { status := some "completed" } },
     by decide, rfl, by decide, Or.inl (by decide)⟩

/-- C4: when the Assignment insert succeeds but the content merge fails,
`assignReportToUser` deletes the Assignment row it created before
surfacing the error: the call returns the internal error and the final
store has no Assignment row for that report. -/
theorem assign_merge_failure_rolls_back_assignment (s : StoreState)
    (env : Env) (reportId userId : String) (now : Int) (r : ReportEntity)
    (m : String) (hrep : findByIdR s reportId = some r)
    (hpre : findAssignment s reportId none = none)
    (hca : env.createAssignmentError = none)
    (hupd : env.updateReportError = some m) :
    (assignReportToUser s env reportId userId now).2 =
      .error (.internal ("Failed to update report status: " ++ m)) ∧
    ∀ a ∈ (assignReportToUser s env reportId userId now).1.assignments,
      a.report_id ≠ reportId := by
  have hpre2 : findAssignment (findOrCreateModerator s userId).1
      reportId none = none := by
    rw [findAssignment_fOCM]
    exact hpre
  unfold assignReportToUser
  rw [hrep]
  simp only [hpre2, hca, hupd]
  exact ⟨trivial, deleteAssignment_no_row _ reportId⟩

/-- Witness for C4: concrete store, successful insert, failing merge. -/
theorem assign_merge_failure_rolls_back_assignment_witness :
    (assignReportToUser { reports := [{ report_id := "w4" }] }
        { updateReportError := some "merge failed" } "w4" "u4" 3).2 =
      .error (.internal ("Failed to update report status: " ++
        "merge failed")) ∧
    ∀ a ∈ (assignReportToUser { reports := [{ report_id := "w4" }] }
        { updateReportError := some "merge failed" } "w4" "u4" 3).1.assignments,
      a.report_id ≠ "w4" :=
  assign_merge_failure_rolls_back_assignment
    { reports := [{ report_id := "w4" }] }
    { updateReportError := some "merge failed" } "w4" "u4" 3
    { report_id := "w4" } "merge failed" (by decide) (by decide) rfl rfl

theorem unassign_conflict_of_no_row (s : StoreState) (env : Env)
    (reportId userId : String) (r : ReportEntity)
    (hrep : findByIdR s reportId = some r)
    (hnone : findAssignment s reportId (some userId) = none) :
    unassignReportFromUser s env reportId userId =
      ((findOrCreateModerator s userId).1,
       .error (.conflict "This report is not assigned to you")) := by
  unfold unassignReportFromUser
  rw [hrep]
  simp only [fOCM_snd, findAssignment_fOCM, hnone]

/-- C5: `unassign` on an existing report fails with
`Conflict("not assigned to you")` whenever no Assignment row owned by the
actor's resolved moderator exists (in particular when there is no
assignment at all, and on the second of two consecutive unassign calls by
the same actor); when such a row exists, the row is deleted and the content
is merged with status `pending` and cleared `assigned_to`/`assigned_at`. -/
theorem unassign_requires_ownership (s : StoreState) (env env2 : Env)
    (reportId userId : String) (r : ReportEntity)
    (hrep : findByIdR s reportId = some r) :
    (findAssignment s reportId (some userId) = none →
      unassignReportFromUser s env reportId userId =
        ((findOrCreateModerator s userId).1,
         .error (.conflict "This report is not assigned to you"))) ∧
    (env.updateReportError = none →
      ∀ a, findAssignment s reportId (some userId) = some a →
      (unassignReportFromUser s env reportId userId).2 =
        .ok { message := "Report unassigned successfully",
              reportId := reportId } ∧
      (∀ b ∈ (unassignReportFromUser s env reportId userId).1.assignments,
        b.report_id ≠ reportId) ∧
      findByIdR (unassignReportFromUser s env reportId userId).1 reportId =
        some { r with report_content :=
          { r.report_content with
              status := some "pending"
              assigned_to := none
              assigned_at := .absent } } ∧
      (unassignReportFromUser
          (unassignReportFromUser s env reportId userId).1 env2 reportId
          userId).2 =
        .error (.conflict "This report is not assigned to you")) := by
  constructor
  · intro hnone
    exact unassign_conflict_of_no_row s env reportId userId r hrep hnone
  · intro hupd a ha
    have hout : unassignReportFromUser s env reportId userId =
        (updateContent
           (deleteAssignment (findOrCreateModerator s userId).1 reportId)
           reportId
           { r.report_content with
               status := some "pending"
               assigned_to := none
               assigned_at := .absent },
         .ok { message := "Report unassigned successfully",
               reportId := reportId }) := by
      unfold unassignReportFromUser
      rw [hrep]
      simp only [fOCM_snd, findAssignment_fOCM, ha, hupd]
    have hnorow : ∀ b ∈ (unassignReportFromUser s env reportId
        userId).1.assignments, b.report_id ≠ reportId := by
      rw [hout]
      exact deleteAssignment_no_row _ reportId
    have hfid : findByIdR (unassignReportFromUser s env reportId userId).1
        reportId =
        some { r with report_content :=
          { r.report_content with
              status := some "pending"
              assigned_to := none
              assigned_at := .absent } } := by
      rw [hout]
      have h1 : findByIdR
          (deleteAssignment (findOrCreateModerator s userId).1 reportId)
          reportId = some r := by
        have h2 : findByIdR
            (deleteAssignment (findOrCreateModerator s userId).1 reportId)
            reportId = findByIdR (findOrCreateModerator s userId).1
              reportId := rfl
        rw [h2, findByIdR_fOCM]
        exact hrep
      rw [findByIdR_updateContent, h1]
      rfl
    refine ⟨?_, hnorow, hfid, ?_⟩
    · rw [hout]
    · have hfa : findAssignment
          (unassignReportFromUser s env reportId userId).1 reportId
          (some userId) = none :=
        findAssignment_eq_none_of_no_row _ _ _ hnorow
      rw [unassign_conflict_of_no_row
        (unassignReportFromUser s env reportId userId).1 env2 reportId userId
        _ hfid hfa]

/-- Witness for C5: a concrete store with an assignment owned by the
caller; the first call succeeds. -/
theorem unassign_requires_ownership_witness :
    (unassignReportFromUser
        { reports := [{ report_id := "w5" }],
          assignments := [{ report_id := "w5", moderator_id := "u5",
                            assigned_at := .valid 1 }],
          moderators := ["u5"] }
        {} "w5" "u5").2 =
      .ok { message := "Report unassigned successfully", reportId := "w5" } :=
  ((unassign_requires_ownership
      { reports := [{ report_id := "w5" }],
        assignments := [{ report_id := "w5", moderator_id := "u5",
                          assigned_at := .valid 1 }],
        moderators := ["u5"] }
      {} {} "w5" "u5" { report_id := "w5" } (by decide)).2 rfl
    { report_id := "w5", moderator_id := "u5", assigned_at := .valid 1 }
    (by decide)).1

/-- C6: when the content merge of `review` succeeds, a failure of the
notification email step is swallowed: the call still returns the success
result with status `completed`, the stored content keeps status
`completed`, and the failure is only observable as a logged email outcome. -/
theorem review_notifier_failure_swallowed (s : StoreState) (env : Env)
    (reportId userId : String) (dto : ReviewReportDto) (now : Int)
    (r : ReportEntity) (a : AssignedReport) (m : String)
    (hrep : findByIdR s reportId = some r)
    (hown : findAssignment s reportId (some userId) = some a)
    (hupd : env.updateReportError = none)
    (hmail : env.emailSendError = some m) :
    (reviewReport s env reportId userId dto now).result =
      .ok { message := "Report reviewed successfully", reportId := reportId,
            status := "completed" } ∧
    (findByIdR (reviewReport s env reportId userId dto now).state
        reportId).map (fun e => e.report_content.status) =
      some (some "completed") ∧
    (r.reporter_email ≠ "" →
      (reviewReport s env reportId userId dto now).email = .failedLogged m) := by
  have hown2 : findAssignment (findOrCreateModerator s userId).1 reportId
      (some userId) = some a := by
    rw [findAssignment_fOCM]
    exact hown
  unfold reviewReport
  rw [hrep]
  simp only [fOCM_snd, hown2, hupd]
  refine ⟨trivial, ?_, ?_⟩
  · have h1 : findByIdR (findOrCreateModerator s userId).1 reportId =
        some r := by
      rw [findByIdR_fOCM]
      exact hrep
    rw [findByIdR_updateContent, h1]
    rfl
  · intro hne
    unfold sendReportReviewEmail
    rw [if_neg hne, hmail]

/-- Witness for C6: owning moderator reviews; the email send is injected to
fail; the call still completes with status `completed`. -/
theorem review_notifier_failure_swallowed_witness :
    (reviewReport
        { reports := [{ report_id := "w6", reporter_email := "a@b.c" }],
          assignments := [{ report_id := "w6", moderator_id := "u6",
                            assigned_at := .valid 1 }],
          moderators := ["u6"] }
        { emailSendError := some "smtp down" } "w6" "u6" {} 9).result =
      .ok { message := "Report reviewed successfully", reportId := "w6",
            status := "completed" } ∧
    (reviewReport
        { reports := [{ report_id := "w6", reporter_email := "a@b.c" }],
          assignments := [{ report_id := "w6", moderator_id := "u6",
                            assigned_at := .valid 1 }],
          moderators := ["u6"] }
        { emailSendError := some "smtp down" } "w6" "u6" {} 9).email =
      .failedLogged "smtp down" := by
  have h := review_notifier_failure_swallowed
    { reports := [{ report_id := "w6", reporter_email := "a@b.c" }],
      assignments := [{ report_id := "w6", moderator_id := "u6",
                        assigned_at := .valid 1 }],
      moderators := ["u6"] }
    { emailSendError := some "smtp down" } "w6" "u6" {} 9
    { report_id := "w6", reporter_email := "a@b.c" }
    { report_id := "w6", moderator_id := "u6", assigned_at := .valid 1 }
    "smtp down" (by decide) (by decide) rfl rfl
  exact ⟨h.1, h.2.2 (by decide)⟩
